import Mathlib

/-!
Verification development for the tmita optical cardiomyocyte analysis
repository, covering the communication protocol packet codec
(src/comm_protocol/Packet.py and the older
raspberry_communication_protocol/Packet.py), the TCP server request
handler, the video reader producer, and the region utilities.

Buffers are modelled as lists of natural numbers (one entry per byte),
machine integers as Nat with explicit bounds, and fallible code paths as
explicit result constructors.
-/

/-- Little endian encoding of a value into a fixed number of bytes.
Models int.to_bytes and the struct.pack fields with format "<". -/
def leBytes : Nat → Nat → List Nat
  | 0, _ => []
  | n + 1, v => v % 256 :: leBytes n (v / 256)

/-- Little endian decoding of a byte list, models int.from_bytes with
byte order little. -/
def leDecode (l : List Nat) : Nat :=
  l.foldr (fun b acc => b + 256 * acc) 0

/-- Big endian decoding of a byte list, models int.from_bytes with
byte order big, used by the older raspberry protocol. -/
def beDecode (l : List Nat) : Nat :=
  l.foldl (fun acc b => 256 * acc + b) 0

/-- Helper for binString, recursion on an explicit fuel argument. -/
def natBitsAux : Nat → Nat → List Bool
  | 0, _ => []
  | fuel + 1, n => if n = 0 then [] else natBitsAux fuel (n / 2) ++ [n % 2 == 1]

/-- Binary digit string of a number, most significant bit first, with no
leading zeros; binString 0 = [false]. Models the Python expression
bin(n)[2:] that both deserializers use to slice the header byte. -/
def binString (n : Nat) : List Bool :=
  if n = 0 then [false] else natBitsAux n n

/-- Value of a most-significant-first digit string, models int(s, 2)
applied to a nonempty slice of the bin(n)[2:] string. -/
def bitsToNat (l : List Bool) : Nat :=
  l.foldl (fun a b => 2 * a + (if b then 1 else 0)) 0

/-- Single shift step of CRC-16/ARC (reflected polynomial 0xA001,
that is 40961). Models one inner iteration of the fastcrc crc16.arc
computation. -/
def crcStep1 (c : Nat) : Nat :=
  if c % 2 = 1 then (c / 2) ^^^ 40961 else c / 2

/-- Eight shift steps of CRC-16/ARC, one per bit of a byte. -/
def crcStep8 (c : Nat) : Nat :=
  crcStep1 (crcStep1 (crcStep1 (crcStep1 (crcStep1 (crcStep1 (crcStep1 (crcStep1 c)))))))

/-- CRC-16/ARC update for one byte. -/
def crcByte (c b : Nat) : Nat :=
  crcStep8 (c ^^^ b)

/-- CRC-16/ARC of a byte list starting from a given register value. -/
def crc16arcFrom (c : Nat) (data : List Nat) : Nat :=
  data.foldl crcByte c

/-- CRC-16/ARC of a byte list (poly 0x8005 reflected, init 0, xorout 0).
Models fastcrc.crc16.arc, the CRC_COMPUTER of the newer Packet class. -/
def crc16arc (data : List Nat) : Nat :=
  crc16arcFrom 0 data

/-- Single shift step of the non-reflected CRC-16 with polynomial 0x1021
(4129), init 0, used through the external crc library as
crc.Crc16.CCITT by the older raspberry Packet class. -/
def ccittStep1 (c : Nat) : Nat :=
  if c.testBit 15 then ((c * 2) ^^^ 4129) % 65536 else (c * 2) % 65536

/-- CRC-16 CCITT update for one byte. -/
def ccittByte (c b : Nat) : Nat :=
  ccittStep1 (ccittStep1 (ccittStep1 (ccittStep1 (ccittStep1 (ccittStep1 (ccittStep1 (ccittStep1 ((c ^^^ (b * 256)) % 65536))))))))

/-- CRC-16 CCITT (XMODEM parameters) of a byte list. Models the external
crc library checksum used by the older raspberry Packet class. -/
def crc16ccitt (data : List Nat) : Nat :=
  data.foldl ccittByte 0

/-- Modelled from the spec: the PacketType enum
(src/comm_protocol/PacketType.py is not part of the provided sources).
Spec section 6: packet type encoding in 2 bits, OK=0, FRAME=1,
REQUEST=2, HALT=3. -/
inductive PacketType where
  | OK
  | FRAME
  | REQUEST
  | HALT
deriving DecidableEq, Repr

/-- Numeric value of a packet type, models PacketType.value. -/
def PacketType.toVal : PacketType → Nat
  | .OK => 0
  | .FRAME => 1
  | .REQUEST => 2
  | .HALT => 3

/-- Packet type from its numeric value; none models the ValueError
raised by the Python enum constructor on an unknown value. -/
def PacketType.ofVal : Nat → Option PacketType
  | 0 => some .OK
  | 1 => some .FRAME
  | 2 => some .REQUEST
  | 3 => some .HALT
  | _ => none

/-- Modelled from the spec: the PacketDataType enum
(src/comm_protocol/PacketDataType.py is not part of the provided
sources). Spec section 6: payload dtype encoding in 2 bits, U8=0,
I32=1, F32=2, F64=3. -/
inductive PacketDataType where
  | U8
  | I32
  | F32
  | F64
deriving DecidableEq, Repr

/-- Numeric 2 bit value of a payload dtype tag. -/
def PacketDataType.toVal : PacketDataType → Nat
  | .U8 => 0
  | .I32 => 1
  | .F32 => 2
  | .F64 => 3

/-- Dtype tag from its 2 bit value, models PacketDataType.from_bin_form;
none models a lookup failure for an unknown value. -/
def PacketDataType.ofVal : Nat → Option PacketDataType
  | 0 => some .U8
  | 1 => some .I32
  | 2 => some .F32
  | 3 => some .F64
  | _ => none

/-- Number of bytes of one element of the given dtype. -/
def PacketDataType.itemsize : PacketDataType → Nat
  | .U8 => 1
  | .I32 => 4
  | .F32 => 4
  | .F64 => 8

/-- Shallow model of a NumPy ndarray: a shape, an element dtype tag and
the raw row-major byte sequence returned by tobytes(). -/
structure NDArray where
  shape : List Nat
  dtype : PacketDataType
  data : List Nat
deriving DecidableEq, Repr

/-- Well-formedness of an array: the byte count matches the shape and
every entry is a byte. True of every array NumPy can actually build. -/
def NDArray.wf (a : NDArray) : Prop :=
  a.data.length = a.shape.prod * a.dtype.itemsize ∧ ∀ b ∈ a.data, b < 256

/-- Field content of the newer protocol Packet class
(src/comm_protocol/Packet.py). -/
structure Packet where
  frame_number : Nat
  packet_type : PacketType
  payload_dtype : PacketDataType
  frame_shape : List Nat
  frame_channel_count : Nat
  payload : NDArray
  payload_crc : Nat
deriving DecidableEq, Repr

/-- Protocol version constant, 0b10. -/
def PROTOCOL_VER : Nat := 2

/-- Packet construction, models Packet.__init__ of the newer class.
In the source the branch for shape (0,) also assigns
frame_channel_count = 0, but the following unconditional if statement
reassigns the field, so that assignment is dead and the final value for
an empty payload is 1. -/
def mkPacket (frame_number : Nat) (packet_type : PacketType) (payload : NDArray) : Packet :=
  let payload_dtype := payload.dtype
  let frame_shape := if payload.shape = [0] then [0, 0] else payload.shape.take 2
  let frame_channel_count := if payload.shape.length ≤ 2 then 1 else payload.shape.getD 2 0
  { frame_number := frame_number
    packet_type := packet_type
    payload_dtype := payload_dtype
    frame_shape := frame_shape
    frame_channel_count := frame_channel_count
    payload := payload
    payload_crc := crc16arc payload.data }

/-- Number of payload bytes, models Packet.payload_length. -/
def Packet.payload_length (p : Packet) : Nat :=
  p.payload.data.length

/-- Helper for chunks, recursion on an explicit fuel argument. -/
def chunksAux (n : Nat) : Nat → List Nat → List (List Nat)
  | 0, _ => []
  | _, [] => []
  | fuel + 1, l => l.take n :: chunksAux n fuel (l.drop n)

/-- Split a byte list into consecutive groups of n bytes, the little
endian bytes of one array element each. -/
def chunks (n : Nat) (l : List Nat) : List (List Nat) :=
  chunksAux n l.length l

/-- True when the little endian byte group encodes an IEEE 754 NaN of
the given dtype (exponent bits all set and mantissa nonzero); the
integer dtypes have no NaN. -/
def isNaNGroup (dt : PacketDataType) (g : List Nat) : Bool :=
  match dt with
  | .U8 => false
  | .I32 => false
  | .F32 => (leDecode g >>> 23) % 256 == 255 && leDecode g % 2 ^ 23 != 0
  | .F64 => (leDecode g >>> 52) % 2048 == 2047 && leDecode g % 2 ^ 52 != 0

/-- True when the little endian byte group encodes an IEEE 754 zero of
either sign of the given dtype. -/
def isZeroGroup (dt : PacketDataType) (g : List Nat) : Bool :=
  match dt with
  | .U8 => false
  | .I32 => false
  | .F32 => leDecode g % 2 ^ 31 == 0
  | .F64 => leDecode g % 2 ^ 63 == 0

/-- NumPy equality of two elements of the same dtype given by their
little endian byte groups. Integer elements are equal exactly when
their bytes are (the encoding of a fixed-width integer is injective).
Two IEEE floats are equal exactly when both are zeros of either sign,
or their bit patterns agree and do not encode a NaN: NaN compares
unequal even to itself. -/
def elemEq (dt : PacketDataType) (g1 g2 : List Nat) : Bool :=
  match dt with
  | .U8 => g1 == g2
  | .I32 => g1 == g2
  | .F32 => (isZeroGroup .F32 g1 && isZeroGroup .F32 g2) ||
      (g1 == g2 && !isNaNGroup .F32 g1)
  | .F64 => (isZeroGroup .F64 g1 && isZeroGroup .F64 g2) ||
      (g1 == g2 && !isNaNGroup .F64 g1)

/-- Models the NumPy expression (a == b).all() for two arrays of the
same shape and the same dtype, the only case the claims reach:
Packet.__eq__ compares payloads only after their shapes agree, and the
decoder reproduces the dtype stored by the encoder. The comparison is
elementwise over the byte groups of the elements, so a float payload
containing a NaN compares unequal even to a byte-identical copy of
itself. -/
def npEqAll (dt : PacketDataType) (d1 d2 : List Nat) : Bool :=
  ((chunks dt.itemsize d1).zip (chunks dt.itemsize d2)).all
    (fun gg => elemEq dt gg.1 gg.2) &&
  (d1.length == d2.length)

/-- Structural equality test of two packets, models Packet.__eq__ of the
newer class: frame number, packet type, payload crc, payload shape and
the elementwise NumPy payload comparison must all agree. -/
def Packet.beqPacket (p q : Packet) : Bool :=
  decide (p.frame_number = q.frame_number) &&
  decide (p.packet_type = q.packet_type) &&
  decide (p.payload_crc = q.payload_crc) &&
  decide (p.payload.shape = q.payload.shape) &&
  npEqAll p.payload.dtype p.payload.data q.payload.data

/-- Serialization, models Packet.serialize: magic word INU, the packed
header byte, frame number (u32), the first two entries of frame_shape
(u16 each), payload length (u32), payload bytes, CRC (u16), magic word
NEKO, all little endian. The result is none when struct.pack would
raise: when frame_shape has fewer than two entries, or a packed integer
does not fit its field. -/
def Packet.serialize (p : Packet) : Option (List Nat) :=
  let header := PROTOCOL_VER <<< 6 ||| p.packet_type.toVal <<< 4 |||
    p.frame_channel_count <<< 2 ||| p.payload_dtype.toVal
  match p.frame_shape.take 2 with
  | [w, h] =>
    if header < 256 ∧ p.frame_number < 2 ^ 32 ∧ w < 2 ^ 16 ∧ h < 2 ^ 16 ∧
        p.payload.data.length < 2 ^ 32 ∧ p.payload_crc < 2 ^ 16 then
      some ([73, 78, 85, header] ++ leBytes 4 p.frame_number ++ leBytes 2 w ++
        leBytes 2 h ++ leBytes 4 p.payload.data.length ++ p.payload.data ++
        leBytes 2 p.payload_crc ++ [78, 69, 75, 79])
    else none
  | _ => none

/-- Deserialization outcome of the newer protocol. The constructors
noneVersion and noneCrc are the two return None paths of
Packet.deserialize; errStruct models the struct.error exception raised
by struct.unpack on a length mismatch, errValue the ValueError paths
(int of an empty digit string, unknown enum value, frombuffer on a
byte count that is not a multiple of the item size) and errReshape the
exception raised by ndarray.reshape on an element count mismatch. -/
inductive DResult where
  | ok (p : Packet)
  | noneVersion
  | noneCrc
  | errStruct
  | errValue
  | errReshape
deriving DecidableEq, Repr

/-- Fields of a raw packet once all steps of Packet.deserialize before
the CRC comparison have succeeded. -/
structure ParsedPacket where
  frame_number : Nat
  packet_type : PacketType
  frame_channel_count : Nat
  payload_dtype : PacketDataType
  shape : List Nat
  payload_bin : List Nat
  payload_crc : Nat
deriving DecidableEq, Repr

/-- Intermediate result of the parsing phase of Packet.deserialize. -/
inductive ParseOut where
  | fail (r : DResult)
  | ok (pr : ParsedPacket)
deriving DecidableEq, Repr

/-- Parsing phase of Packet.deserialize of the newer class, in source
order: read the stored payload length at offset 12, unpack (struct
raises unless the buffer length is exactly 22 plus the stored length),
slice the header byte with bin(...)[2:] into version, packet type,
channel count and dtype, rebuild the payload with frombuffer and
reshape. The magic words are extracted but never compared, as in the
source. -/
def parsePacket (buf : List Nat) : ParseOut :=
  let storedLen := leDecode ((buf.drop 12).take 4)
  if buf.length ≠ 22 + storedLen then .fail .errStruct else
  let header := buf.getD 3 0
  let frame_number := leDecode ((buf.drop 4).take 4)
  let w := leDecode ((buf.drop 8).take 2)
  let h := leDecode ((buf.drop 10).take 2)
  let payload_bin := (buf.drop 16).take storedLen
  let stored_crc := leDecode ((buf.drop (16 + storedLen)).take 2)
  let s := binString header
  if bitsToNat (s.take 2) ≠ PROTOCOL_VER then .fail .noneVersion else
  let ptBits := (s.drop 2).take 2
  if ptBits.isEmpty then .fail .errValue else
  match PacketType.ofVal (bitsToNat ptBits) with
  | none => .fail .errValue
  | some packet_type =>
  let ccBits := (s.drop 4).take 2
  if ccBits.isEmpty then .fail .errValue else
  let ccount := bitsToNat ccBits
  let dtBits := s.drop 6
  if dtBits.isEmpty then .fail .errValue else
  match PacketDataType.ofVal (bitsToNat dtBits) with
  | none => .fail .errValue
  | some pdt =>
  if payload_bin.length % pdt.itemsize ≠ 0 then .fail .errValue else
  let shape := if ccount = 1 then [w, h] else [w, h, ccount]
  if shape.prod ≠ payload_bin.length / pdt.itemsize then .fail .errReshape else
  .ok { frame_number := frame_number
        packet_type := packet_type
        frame_channel_count := ccount
        payload_dtype := pdt
        shape := shape
        payload_bin := payload_bin
        payload_crc := stored_crc }

/-- Deserialization, models Packet.deserialize of the newer class: after
the parsing phase, the source recomputes the CRC of the payload bytes
and returns None when it differs from the stored value, otherwise it
fills a placeholder packet with the decoded fields. -/
def Packet.deserialize (buf : List Nat) : DResult :=
  match parsePacket buf with
  | .fail r => r
  | .ok pr =>
    if pr.payload_crc ≠ crc16arc pr.payload_bin then .noneCrc
    else .ok { frame_number := pr.frame_number
               packet_type := pr.packet_type
               payload_dtype := pr.payload_dtype
               frame_shape := pr.shape
               frame_channel_count := pr.frame_channel_count
               payload := { shape := pr.shape, dtype := pr.payload_dtype, data := pr.payload_bin }
               payload_crc := pr.payload_crc }

/-- Round trip check: serialize a packet built from the given inputs,
deserialize the result and compare with the original through
Packet.__eq__. False when any step fails. -/
def roundTripEq (fn : Nat) (pt : PacketType) (a : NDArray) : Bool :=
  match Packet.serialize (mkPacket fn pt a) with
  | none => false
  | some buf =>
    match Packet.deserialize buf with
    | .ok q => Packet.beqPacket q (mkPacket fn pt a)
    | _ => false

/-- Number of payload dimensions produced by a round trip, when it
reaches a decoded packet. -/
def rtShapeLen (fn : Nat) (pt : PacketType) (a : NDArray) : Option Nat :=
  match Packet.serialize (mkPacket fn pt a) with
  | none => none
  | some buf =>
    match Packet.deserialize buf with
    | .ok q => some q.payload.shape.length
    | _ => none

/-- Explicit byte-by-byte form of a serialized buffer: magic INU, header
byte, frame number, width, height, payload length, payload, CRC, magic
NEKO. The integer fields appear as their little endian bytes. -/
def mkBuf (hb fn w h : Nat) (data : List Nat) (crc : Nat) : List Nat :=
  73 :: 78 :: 85 :: hb ::
  fn % 256 :: fn / 256 % 256 :: fn / 256 / 256 % 256 :: fn / 256 / 256 / 256 % 256 ::
  w % 256 :: w / 256 % 256 :: h % 256 :: h / 256 % 256 ::
  data.length % 256 :: data.length / 256 % 256 ::
  data.length / 256 / 256 % 256 :: data.length / 256 / 256 / 256 % 256 ::
  (data ++ crc % 256 :: crc / 256 % 256 :: [78, 69, 75, 79])

theorem leBytes_four (v : Nat) :
    leBytes 4 v = [v % 256, v / 256 % 256, v / 256 / 256 % 256, v / 256 / 256 / 256 % 256] := rfl

theorem leBytes_two (v : Nat) : leBytes 2 v = [v % 256, v / 256 % 256] := rfl

theorem leDecode_four (v : Nat) (h : v < 2 ^ 32) :
    leDecode [v % 256, v / 256 % 256, v / 256 / 256 % 256, v / 256 / 256 / 256 % 256] = v := by
  simp only [leDecode, List.foldr]
  omega

theorem leDecode_two (v : Nat) (h : v < 2 ^ 16) :
    leDecode [v % 256, v / 256 % 256] = v := by
  simp only [leDecode, List.foldr]
  omega

theorem mkBuf_length (hb fn w h : Nat) (data : List Nat) (crc : Nat) :
    (mkBuf hb fn w h data crc).length = 22 + data.length := by
  simp only [mkBuf, List.length_cons, List.length_append, List.length_cons, List.length_nil]
  omega

theorem mkBuf_storedLen (hb fn w h : Nat) (data : List Nat) (crc : Nat) :
    ((mkBuf hb fn w h data crc).drop 12).take 4 =
      [data.length % 256, data.length / 256 % 256,
       data.length / 256 / 256 % 256, data.length / 256 / 256 / 256 % 256] := rfl

theorem mkBuf_header (hb fn w h : Nat) (data : List Nat) (crc : Nat) :
    (mkBuf hb fn w h data crc).getD 3 0 = hb := rfl

theorem mkBuf_frameNumber (hb fn w h : Nat) (data : List Nat) (crc : Nat) :
    ((mkBuf hb fn w h data crc).drop 4).take 4 =
      [fn % 256, fn / 256 % 256, fn / 256 / 256 % 256, fn / 256 / 256 / 256 % 256] := rfl

theorem mkBuf_width (hb fn w h : Nat) (data : List Nat) (crc : Nat) :
    ((mkBuf hb fn w h data crc).drop 8).take 2 = [w % 256, w / 256 % 256] := rfl

theorem mkBuf_height (hb fn w h : Nat) (data : List Nat) (crc : Nat) :
    ((mkBuf hb fn w h data crc).drop 10).take 2 = [h % 256, h / 256 % 256] := rfl

theorem mkBuf_payload (hb fn w h : Nat) (data : List Nat) (crc : Nat) :
    ((mkBuf hb fn w h data crc).drop 16).take data.length = data := by
  have : (mkBuf hb fn w h data crc).drop 16 =
      data ++ crc % 256 :: crc / 256 % 256 :: [78, 69, 75, 79] := rfl
  rw [this, List.take_left]

theorem mkBuf_crcBytes (hb fn w h : Nat) (data : List Nat) (crc : Nat) :
    ((mkBuf hb fn w h data crc).drop (16 + data.length)).take 2 =
      [crc % 256, crc / 256 % 256] := by
  have h16 : (mkBuf hb fn w h data crc).drop 16 =
      data ++ crc % 256 :: crc / 256 % 256 :: [78, 69, 75, 79] := rfl
  have : (mkBuf hb fn w h data crc).drop (16 + data.length) =
      crc % 256 :: crc / 256 % 256 :: [78, 69, 75, 79] := by
    rw [← List.drop_drop, h16, List.drop_left]
  rw [this]
  rfl

/-- Packed header byte of the newer protocol: version in bits 7..6,
packet type in 5..4, channel count in 3..2, dtype in 1..0. -/
def headerByte (ptv ccv dtv : Nat) : Nat :=
  PROTOCOL_VER <<< 6 ||| ptv <<< 4 ||| ccv <<< 2 ||| dtv

theorem PacketType.ofVal_toVal (pt : PacketType) : PacketType.ofVal pt.toVal = some pt := by
  cases pt <;> rfl

theorem PacketDataType.ofVal_toVal_dt (dt : PacketDataType) :
    PacketDataType.ofVal dt.toVal = some dt := by
  cases dt <;> rfl

theorem PacketType.toVal_lt (pt : PacketType) : pt.toVal < 4 := by
  cases pt <;> decide

theorem PacketDataType.toVal_lt_dt (dt : PacketDataType) : dt.toVal < 4 := by
  cases dt <;> decide

theorem PacketDataType.itemsize_pos (dt : PacketDataType) : 0 < dt.itemsize := by
  cases dt <;> decide

/-- Bit slicing of a well-formed header byte: with the version bits equal
to 0b10 the textual binary string has exactly eight digits, so every
field of bin(header)[2:] lands on its intended bits. -/
theorem headerByte_fields : ∀ ptv < 4, ∀ ccv < 4, ∀ dtv < 4,
    headerByte ptv ccv dtv < 256 ∧
    bitsToNat ((binString (headerByte ptv ccv dtv)).take 2) = PROTOCOL_VER ∧
    (((binString (headerByte ptv ccv dtv)).drop 2).take 2).isEmpty = false ∧
    bitsToNat (((binString (headerByte ptv ccv dtv)).drop 2).take 2) = ptv ∧
    (((binString (headerByte ptv ccv dtv)).drop 4).take 2).isEmpty = false ∧
    bitsToNat (((binString (headerByte ptv ccv dtv)).drop 4).take 2) = ccv ∧
    ((binString (headerByte ptv ccv dtv)).drop 6).isEmpty = false ∧
    bitsToNat ((binString (headerByte ptv ccv dtv)).drop 6) = dtv := by
  decide

/-- Parsing a buffer in the explicit wire layout with a well-formed
header succeeds and recovers every field. -/
theorem parse_mkBuf (pt : PacketType) (ccv : Nat) (dt : PacketDataType)
    (fn w h : Nat) (data : List Nat) (crc : Nat)
    (hcc : ccv < 4) (hfn : fn < 2 ^ 32) (hw : w < 2 ^ 16) (hh : h < 2 ^ 16)
    (hlen : data.length < 2 ^ 32) (hcrc : crc < 2 ^ 16)
    (hdvd : data.length % dt.itemsize = 0)
    (hshape : (if ccv = 1 then [w, h] else [w, h, ccv]).prod = data.length / dt.itemsize) :
    parsePacket (mkBuf (headerByte pt.toVal ccv dt.toVal) fn w h data crc) =
      .ok { frame_number := fn, packet_type := pt, frame_channel_count := ccv,
            payload_dtype := dt, shape := if ccv = 1 then [w, h] else [w, h, ccv],
            payload_bin := data, payload_crc := crc } := by
  obtain ⟨hblt, hver, hpne, hpv, hcne, hcv, hdne, hdv⟩ :=
    headerByte_fields pt.toVal pt.toVal_lt ccv hcc dt.toVal dt.toVal_lt_dt
  simp only [parsePacket, mkBuf_storedLen, mkBuf_header, mkBuf_frameNumber, mkBuf_width,
    mkBuf_height, mkBuf_length, leDecode_four _ hlen, leDecode_four _ hfn,
    leDecode_two _ hw, leDecode_two _ hh, mkBuf_payload, mkBuf_crcBytes,
    leDecode_two _ hcrc, hver, hpne, hpv, hcne, hcv, hdne, hdv,
    PacketType.ofVal_toVal, PacketDataType.ofVal_toVal_dt, hdvd, ← hshape]
  simp

/-- Serialization of a packet whose fields fit their wire sizes yields
exactly the explicit wire layout. -/
theorem serialize_eq_mkBuf (p : Packet) (w h : Nat)
    (hfs : p.frame_shape.take 2 = [w, h])
    (hhb : headerByte p.packet_type.toVal p.frame_channel_count p.payload_dtype.toVal < 256)
    (hfn : p.frame_number < 2 ^ 32) (hw : w < 2 ^ 16) (hh : h < 2 ^ 16)
    (hlen : p.payload.data.length < 2 ^ 32) (hcrc : p.payload_crc < 2 ^ 16) :
    p.serialize = some (mkBuf
      (headerByte p.packet_type.toVal p.frame_channel_count p.payload_dtype.toVal)
      p.frame_number w h p.payload.data p.payload_crc) := by
  simp only [Packet.serialize, hfs]
  rw [if_pos ⟨hhb, hfn, hw, hh, hlen, hcrc⟩]
  simp [mkBuf, headerByte, leBytes_four, leBytes_two]

/-- Explicit inverse of one CRC-16/ARC shift step on 16 bit registers. -/
def crcStep1Inv (d : Nat) : Nat :=
  if d.testBit 15 then 2 * (d ^^^ 40961) + 1 else 2 * d

theorem crcStep1_lt {c : Nat} (h : c < 2 ^ 16) : crcStep1 c < 2 ^ 16 := by
  unfold crcStep1
  split
  · exact Nat.xor_lt_two_pow (by omega) (by norm_num)
  · omega

theorem crcStep1Inv_leftInv {c : Nat} (h : c < 2 ^ 16) : crcStep1Inv (crcStep1 c) = c := by
  have hhalf : c / 2 < 2 ^ 15 := by omega
  have hbit : (c / 2).testBit 15 = false := Nat.testBit_lt_two_pow hhalf
  rcases Nat.mod_two_eq_zero_or_one c with hpar | hpar
  · have hstep : crcStep1 c = c / 2 := by
      unfold crcStep1
      rw [if_neg (by omega)]
    rw [hstep]
    unfold crcStep1Inv
    rw [if_neg (by simp [hbit])]
    omega
  · have hstep : crcStep1 c = c / 2 ^^^ 40961 := by
      unfold crcStep1
      rw [if_pos hpar]
    rw [hstep]
    unfold crcStep1Inv
    have hx : (c / 2 ^^^ 40961).testBit 15 = true := by
      rw [Nat.testBit_xor, hbit]
      rfl
    rw [if_pos hx, Nat.xor_cancel_right]
    omega

theorem crcStep1_inj {a b : Nat} (ha : a < 2 ^ 16) (hb : b < 2 ^ 16)
    (h : crcStep1 a = crcStep1 b) : a = b := by
  have := crcStep1Inv_leftInv ha
  rw [h, crcStep1Inv_leftInv hb] at this
  exact this.symm

theorem crcStep8_lt {c : Nat} (h : c < 2 ^ 16) : crcStep8 c < 2 ^ 16 := by
  unfold crcStep8
  exact crcStep1_lt (crcStep1_lt (crcStep1_lt (crcStep1_lt
    (crcStep1_lt (crcStep1_lt (crcStep1_lt (crcStep1_lt h)))))))

theorem crcStep8_inj {a b : Nat} (ha : a < 2 ^ 16) (hb : b < 2 ^ 16)
    (h : crcStep8 a = crcStep8 b) : a = b := by
  unfold crcStep8 at h
  have l1 := crcStep1_lt ha
  have l2 := crcStep1_lt l1
  have l3 := crcStep1_lt l2
  have l4 := crcStep1_lt l3
  have l5 := crcStep1_lt l4
  have l6 := crcStep1_lt l5
  have l7 := crcStep1_lt l6
  have r1 := crcStep1_lt hb
  have r2 := crcStep1_lt r1
  have r3 := crcStep1_lt r2
  have r4 := crcStep1_lt r3
  have r5 := crcStep1_lt r4
  have r6 := crcStep1_lt r5
  have r7 := crcStep1_lt r6
  exact crcStep1_inj ha hb (crcStep1_inj l1 r1 (crcStep1_inj l2 r2 (crcStep1_inj l3 r3
    (crcStep1_inj l4 r4 (crcStep1_inj l5 r5 (crcStep1_inj l6 r6 (crcStep1_inj l7 r7 h)))))))

theorem crcByte_lt {c b : Nat} (hc : c < 2 ^ 16) (hb : b < 256) : crcByte c b < 2 ^ 16 :=
  crcStep8_lt (Nat.xor_lt_two_pow hc (by omega))

theorem crcByte_inj_state {c d b : Nat} (hc : c < 2 ^ 16) (hd : d < 2 ^ 16) (hb : b < 256)
    (h : crcByte c b = crcByte d b) : c = d := by
  have hx := crcStep8_inj (Nat.xor_lt_two_pow hc (by omega))
    (Nat.xor_lt_two_pow hd (by omega)) h
  have := congrArg (· ^^^ b) hx
  simpa [Nat.xor_assoc] using this

theorem crcByte_inj_byte {c b1 b2 : Nat} (hc : c < 2 ^ 16) (hb1 : b1 < 256) (hb2 : b2 < 256)
    (hne : b1 ≠ b2) : crcByte c b1 ≠ crcByte c b2 := by
  intro h
  have hx := crcStep8_inj (Nat.xor_lt_two_pow hc (by omega))
    (Nat.xor_lt_two_pow hc (by omega)) h
  apply hne
  rw [← Nat.xor_cancel_left c b1, hx, Nat.xor_cancel_left]

theorem crc16arcFrom_lt {c : Nat} {l : List Nat} (hc : c < 2 ^ 16)
    (hl : ∀ b ∈ l, b < 256) : crc16arcFrom c l < 2 ^ 16 := by
  induction l generalizing c with
  | nil => exact hc
  | cons x xs ih =>
    exact ih (crcByte_lt hc (hl x (List.mem_cons_self x xs)))
      (fun b hb => hl b (List.mem_cons_of_mem x hb))

theorem crc16arcFrom_inj {c d : Nat} {l : List Nat} (hc : c < 2 ^ 16) (hd : d < 2 ^ 16)
    (hl : ∀ b ∈ l, b < 256) (h : crc16arcFrom c l = crc16arcFrom d l) : c = d := by
  induction l generalizing c d with
  | nil => exact h
  | cons x xs ih =>
    have hx : x < 256 := hl x (List.mem_cons_self x xs)
    exact crcByte_inj_state hc hd hx
      (ih (crcByte_lt hc hx) (crcByte_lt hd hx)
        (fun b hb => hl b (List.mem_cons_of_mem x hb)) h)

/-- Changing one byte of a byte list changes its CRC-16/ARC. -/
theorem crc16arc_single_byte_ne (pre suf : List Nat) (b1 b2 : Nat)
    (hpre : ∀ b ∈ pre, b < 256) (hsuf : ∀ b ∈ suf, b < 256)
    (hb1 : b1 < 256) (hb2 : b2 < 256) (hne : b1 ≠ b2) :
    crc16arc (pre ++ b1 :: suf) ≠ crc16arc (pre ++ b2 :: suf) := by
  intro h
  unfold crc16arc crc16arcFrom at h
  rw [List.foldl_append, List.foldl_append] at h
  simp only [List.foldl_cons] at h
  have hs : List.foldl crcByte 0 pre < 2 ^ 16 := crc16arcFrom_lt (by norm_num) hpre
  have hinj := crc16arcFrom_inj (crcByte_lt hs hb1) (crcByte_lt hs hb2) hsuf h
  exact crcByte_inj_byte hs hb1 hb2 hne hinj

theorem crc16arc_lt {l : List Nat} (hl : ∀ b ∈ l, b < 256) : crc16arc l < 2 ^ 16 :=
  crc16arcFrom_lt (by norm_num) hl

theorem deserialize_of_parse_ne (buf : List Nat) (pr : ParsedPacket)
    (hp : parsePacket buf = .ok pr) (hcrc : pr.payload_crc ≠ crc16arc pr.payload_bin) :
    Packet.deserialize buf = .noneCrc := by
  rw [Packet.deserialize, hp]
  simp [hcrc]

theorem deserialize_of_parse_ok (buf : List Nat) (pr : ParsedPacket)
    (hp : parsePacket buf = .ok pr) (hcrc : pr.payload_crc = crc16arc pr.payload_bin) :
    Packet.deserialize buf =
      .ok { frame_number := pr.frame_number, packet_type := pr.packet_type,
            payload_dtype := pr.payload_dtype, frame_shape := pr.shape,
            frame_channel_count := pr.frame_channel_count,
            payload := { shape := pr.shape, dtype := pr.payload_dtype, data := pr.payload_bin },
            payload_crc := pr.payload_crc } := by
  rw [Packet.deserialize, hp]
  simp [hcrc]

/-- Round trip of a packet built from a two dimensional payload. -/
theorem roundTripEq_2d (fn : Nat) (pt : PacketType) (a : NDArray) (w h : Nat)
    (hs : a.shape = [w, h]) (hwf : a.wf) (hfn : fn < 2 ^ 32)
    (hlen : a.data.length < 2 ^ 32) (hw : w < 2 ^ 16) (hh : h < 2 ^ 16)
    (hself : npEqAll a.dtype a.data a.data = true) :
    roundTripEq fn pt a = true ∧ rtShapeLen fn pt a = some 2 := by
  have hcrcb : crc16arc a.data < 2 ^ 16 := crc16arc_lt hwf.2
  have hfs : (mkPacket fn pt a).frame_shape.take 2 = [w, h] := by
    simp [mkPacket, hs]
  have hcc : (mkPacket fn pt a).frame_channel_count = 1 := by
    simp [mkPacket, hs]
  have hhb := (headerByte_fields pt.toVal pt.toVal_lt 1 (by norm_num)
    a.dtype.toVal a.dtype.toVal_lt_dt).1
  have hser : (mkPacket fn pt a).serialize =
      some (mkBuf (headerByte pt.toVal 1 a.dtype.toVal) fn w h a.data (crc16arc a.data)) := by
    have := serialize_eq_mkBuf (mkPacket fn pt a) w h hfs (by rw [hcc]; exact hhb)
      hfn hw hh hlen hcrcb
    rw [hcc] at this
    exact this
  have hdvd : a.data.length % a.dtype.itemsize = 0 := by
    rw [hwf.1]
    exact Nat.mul_mod_left _ _
  have hshp : (if (1 : Nat) = 1 then [w, h] else [w, h, 1]).prod =
      a.data.length / a.dtype.itemsize := by
    rw [if_pos rfl, hwf.1, hs, Nat.mul_div_cancel _ a.dtype.itemsize_pos]
  have hparse := parse_mkBuf pt 1 a.dtype fn w h a.data (crc16arc a.data)
    (by norm_num) hfn hw hh hlen hcrcb hdvd hshp
  rw [if_pos rfl] at hparse
  have hdes := deserialize_of_parse_ok _ _ hparse rfl
  constructor
  · rw [roundTripEq, hser]
    simp only [hdes]
    simp [Packet.beqPacket, mkPacket, hs, hself]
  · rw [rtShapeLen, hser]
    simp only [hdes]
    simp

/-- Round trip of a packet built from a three dimensional payload with
channel count two or three. -/
theorem roundTripEq_3d (fn : Nat) (pt : PacketType) (a : NDArray) (w h c : Nat)
    (hs : a.shape = [w, h, c]) (hwf : a.wf) (hfn : fn < 2 ^ 32)
    (hlen : a.data.length < 2 ^ 32) (hw : w < 2 ^ 16) (hh : h < 2 ^ 16)
    (hc2 : 2 ≤ c) (hc3 : c ≤ 3)
    (hself : npEqAll a.dtype a.data a.data = true) :
    roundTripEq fn pt a = true ∧ rtShapeLen fn pt a = some 3 := by
  have hcrcb : crc16arc a.data < 2 ^ 16 := crc16arc_lt hwf.2
  have hfs : (mkPacket fn pt a).frame_shape.take 2 = [w, h] := by
    simp [mkPacket, hs]
  have hcc : (mkPacket fn pt a).frame_channel_count = c := by
    simp [mkPacket, hs]
  have hhb := (headerByte_fields pt.toVal pt.toVal_lt c (by omega)
    a.dtype.toVal a.dtype.toVal_lt_dt).1
  have hser : (mkPacket fn pt a).serialize =
      some (mkBuf (headerByte pt.toVal c a.dtype.toVal) fn w h a.data (crc16arc a.data)) := by
    have := serialize_eq_mkBuf (mkPacket fn pt a) w h hfs (by rw [hcc]; exact hhb)
      hfn hw hh hlen hcrcb
    rw [hcc] at this
    exact this
  have hdvd : a.data.length % a.dtype.itemsize = 0 := by
    rw [hwf.1]
    exact Nat.mul_mod_left _ _
  have hshp : (if c = 1 then [w, h] else [w, h, c]).prod =
      a.data.length / a.dtype.itemsize := by
    rw [if_neg (by omega), hwf.1, hs, Nat.mul_div_cancel _ a.dtype.itemsize_pos]
  have hparse := parse_mkBuf pt c a.dtype fn w h a.data (crc16arc a.data)
    (by omega) hfn hw hh hlen hcrcb hdvd hshp
  rw [if_neg (by omega : ¬ c = 1)] at hparse
  have hdes := deserialize_of_parse_ok _ _ hparse rfl
  constructor
  · rw [roundTripEq, hser]
    simp only [hdes]
    simp [Packet.beqPacket, mkPacket, hs, hself]
  · rw [rtShapeLen, hser]
    simp only [hdes]
    simp

/-- Corruption of one buffer byte: XOR bit k into the byte at offset i. -/
def flipBit (buf : List Nat) (i k : Nat) : List Nat :=
  buf.set i ((buf.getD i 0) ^^^ (1 <<< k))

theorem mkBuf_getD_payload (hb fn w h : Nat) (data : List Nat) (crc : Nat) (j : Nat)
    (hj : j < data.length) :
    (mkBuf hb fn w h data crc).getD (16 + j) 0 = data.getD j 0 := by
  have h1 : mkBuf hb fn w h data crc =
      [73, 78, 85, hb, fn % 256, fn / 256 % 256, fn / 256 / 256 % 256,
       fn / 256 / 256 / 256 % 256, w % 256, w / 256 % 256, h % 256, h / 256 % 256,
       data.length % 256, data.length / 256 % 256, data.length / 256 / 256 % 256,
       data.length / 256 / 256 / 256 % 256] ++
      (data ++ crc % 256 :: crc / 256 % 256 :: [78, 69, 75, 79]) := rfl
  rw [List.getD_eq_getElem?_getD, List.getD_eq_getElem?_getD, h1,
    List.getElem?_append_right (by simp)]
  simp only [List.length_cons, List.length_nil]
  rw [show 16 + j - (0 + 1 + 1 + 1 + 1 + 1 + 1 + 1 + 1 + 1 + 1 + 1 + 1 + 1 + 1 + 1 + 1) = j
    by omega]
  rw [List.getElem?_append_left hj]

theorem flip_mkBuf (hb fn w h : Nat) (data : List Nat) (crc : Nat) (j k : Nat)
    (hj : j < data.length) :
    flipBit (mkBuf hb fn w h data crc) (16 + j) k =
      mkBuf hb fn w h (data.set j (data.getD j 0 ^^^ 1 <<< k)) crc := by
  unfold flipBit
  rw [mkBuf_getD_payload hb fn w h data crc j hj]
  have h1 : mkBuf hb fn w h data crc =
      [73, 78, 85, hb, fn % 256, fn / 256 % 256, fn / 256 / 256 % 256,
       fn / 256 / 256 / 256 % 256, w % 256, w / 256 % 256, h % 256, h / 256 % 256,
       data.length % 256, data.length / 256 % 256, data.length / 256 / 256 % 256,
       data.length / 256 / 256 / 256 % 256] ++
      (data ++ crc % 256 :: crc / 256 % 256 :: [78, 69, 75, 79]) := rfl
  rw [h1, List.set_append_right _ _ (by simp)]
  simp only [List.length_cons, List.length_nil]
  rw [show 16 + j - (0 + 1 + 1 + 1 + 1 + 1 + 1 + 1 + 1 + 1 + 1 + 1 + 1 + 1 + 1 + 1 + 1) = j
    by omega]
  rw [List.set_append_left _ _ hj]
  simp [mkBuf, List.length_set]

theorem list_split_at (l : List Nat) (j : Nat) (hj : j < l.length) :
    l = l.take j ++ l.getD j 0 :: l.drop (j + 1) := by
  induction l generalizing j with
  | nil => simp at hj
  | cons x xs ih =>
    cases j with
    | zero => simp
    | succ n =>
      simp only [List.take_succ_cons, List.getD_cons_succ, List.drop_succ_cons,
        List.cons_append]
      exact congrArg (x :: ·) (ih n (by simpa using hj))

theorem xor_flip_ne (b m : Nat) (hm : m ≠ 0) : b ^^^ m ≠ b := by
  intro h
  apply hm
  have h2 := congrArg (b ^^^ ·) h
  simpa [Nat.xor_cancel_left, Nat.xor_self] using h2

theorem shiftLeft_one_bound {k : Nat} (hk : k < 8) : 1 <<< k ≠ 0 ∧ 1 <<< k < 256 := by
  rw [Nat.shiftLeft_eq, one_mul]
  constructor
  · exact (pow_pos (by norm_num : (0 : ℕ) < 2) k).ne'
  · calc 2 ^ k ≤ 2 ^ 7 := Nat.pow_le_pow_right (by norm_num) (by omega)
      _ < 256 := by norm_num

/-- Changing one payload byte of a byte list changes its CRC-16/ARC. -/
theorem crc16arc_set_ne (data : List Nat) (j v : Nat) (hj : j < data.length)
    (hbytes : ∀ b ∈ data, b < 256) (hv : v < 256) (hne : v ≠ data.getD j 0) :
    crc16arc (data.set j v) ≠ crc16arc data := by
  have hsplit := list_split_at data j hj
  rw [List.set_eq_take_cons_drop v hj]
  conv_rhs => rw [hsplit]
  apply crc16arc_single_byte_ne
  · intro b hb
    exact hbytes b (List.mem_of_mem_take hb)
  · intro b hb
    exact hbytes b (List.mem_of_mem_drop hb)
  · exact hv
  · have : data.getD j 0 ∈ data := by
      rw [List.getD_eq_getElem?_getD, List.getElem?_eq_getElem hj]
      exact List.getElem_mem hj
    exact hbytes _ this
  · exact hne

/-- Serialization of a well-formed packet in terms of the explicit wire
layout, together with the parse result of any buffer in that layout
carrying a payload of the same length. -/
theorem ser_parse_shape (fn : Nat) (pt : PacketType) (a : NDArray)
    (hwf : a.wf) (hfn : fn < 2 ^ 32) (hlen : a.data.length < 2 ^ 32)
    (hshape : (∃ w h, a.shape = [w, h] ∧ w < 2 ^ 16 ∧ h < 2 ^ 16) ∨
      (∃ w h c, a.shape = [w, h, c] ∧ w < 2 ^ 16 ∧ h < 2 ^ 16 ∧ 1 ≤ c ∧ c ≤ 3)) :
    ∃ w h ccv, ccv < 4 ∧
      (mkPacket fn pt a).serialize =
        some (mkBuf (headerByte pt.toVal ccv a.dtype.toVal) fn w h a.data (crc16arc a.data)) ∧
      ∀ data2 : List Nat, data2.length = a.data.length →
        parsePacket (mkBuf (headerByte pt.toVal ccv a.dtype.toVal) fn w h data2
            (crc16arc a.data)) =
          .ok { frame_number := fn, packet_type := pt, frame_channel_count := ccv,
                payload_dtype := a.dtype, shape := if ccv = 1 then [w, h] else [w, h, ccv],
                payload_bin := data2, payload_crc := crc16arc a.data } := by
  have hcrcb : crc16arc a.data < 2 ^ 16 := crc16arc_lt hwf.2
  rcases hshape with ⟨w, h, hs, hw, hh⟩ | ⟨w, h, c, hs, hw, hh, hc1, hc3⟩
  · refine ⟨w, h, 1, by norm_num, ?_, ?_⟩
    · have hfs : (mkPacket fn pt a).frame_shape.take 2 = [w, h] := by
        simp [mkPacket, hs]
      have hcc : (mkPacket fn pt a).frame_channel_count = 1 := by
        simp [mkPacket, hs]
      have hhb := (headerByte_fields pt.toVal pt.toVal_lt 1 (by norm_num)
        a.dtype.toVal a.dtype.toVal_lt_dt).1
      have := serialize_eq_mkBuf (mkPacket fn pt a) w h hfs (by rw [hcc]; exact hhb)
        hfn hw hh hlen hcrcb
      rw [hcc] at this
      exact this
    · intro data2 hl2
      have hdvd : data2.length % a.dtype.itemsize = 0 := by
        rw [hl2, hwf.1]
        exact Nat.mul_mod_left _ _
      have hshp : (if (1 : Nat) = 1 then [w, h] else [w, h, 1]).prod =
          data2.length / a.dtype.itemsize := by
        rw [if_pos rfl, hl2, hwf.1, hs, Nat.mul_div_cancel _ a.dtype.itemsize_pos]
      exact parse_mkBuf pt 1 a.dtype fn w h data2 (crc16arc a.data)
        (by norm_num) hfn hw hh (by rw [hl2]; exact hlen) hcrcb hdvd hshp
  · refine ⟨w, h, c, by omega, ?_, ?_⟩
    · have hfs : (mkPacket fn pt a).frame_shape.take 2 = [w, h] := by
        simp [mkPacket, hs]
      have hcc : (mkPacket fn pt a).frame_channel_count = c := by
        simp [mkPacket, hs]
      have hhb := (headerByte_fields pt.toVal pt.toVal_lt c (by omega)
        a.dtype.toVal a.dtype.toVal_lt_dt).1
      have := serialize_eq_mkBuf (mkPacket fn pt a) w h hfs (by rw [hcc]; exact hhb)
        hfn hw hh hlen hcrcb
      rw [hcc] at this
      exact this
    · intro data2 hl2
      have hdvd : data2.length % a.dtype.itemsize = 0 := by
        rw [hl2, hwf.1]
        exact Nat.mul_mod_left _ _
      have hshp : (if c = 1 then [w, h] else [w, h, c]).prod =
          data2.length / a.dtype.itemsize := by
        rcases Nat.eq_or_lt_of_le hc1 with hc | hc
        · rw [if_pos hc.symm, hl2, hwf.1, hs, Nat.mul_div_cancel _ a.dtype.itemsize_pos, ← hc]
          simp
        · rw [if_neg (by omega), hl2, hwf.1, hs, Nat.mul_div_cancel _ a.dtype.itemsize_pos]
      exact parse_mkBuf pt c a.dtype fn w h data2 (crc16arc a.data)
        (by omega) hfn hw hh (by rw [hl2]; exact hlen) hcrcb hdvd hshp

/-- Field content of the packet produced by the older raspberry protocol
deserializer (raspberry_communication_protocol/Packet.py). The source
stores the name string of the packet type; the enum member itself is
kept here, carrying the same information. -/
structure OldPacket where
  frame_number : Nat
  packet_type : PacketType
  frame_shape : List Nat
  frame_channel_count : Nat
  payload : List Nat
deriving DecidableEq, Repr

/-- Deserialization outcome of the older protocol, with the same reading
of the constructors as DResult. -/
inductive OldDResult where
  | ok (p : OldPacket)
  | noneVersion
  | noneCrc
  | errStruct
  | errValue
  | errReshape
deriving DecidableEq, Repr

/-- Fields of a raw packet once all steps of the older deserializer
before the CRC comparison have succeeded. -/
structure OldParsedPacket where
  frame_number : Nat
  packet_type : PacketType
  frame_channel_count : Nat
  shape : List Nat
  payload_bin : List Nat
  payload_crc : Nat
deriving DecidableEq, Repr

/-- Intermediate result of the parsing phase of the older deserializer. -/
inductive OldParseOut where
  | fail (r : OldDResult)
  | ok (pr : OldParsedPacket)
deriving DecidableEq, Repr

/-- Parsing phase of Packet.deserialize of the older raspberry class, in
source order: all integers are big endian, the header byte carries no
dtype field, the payload is rebuilt with frombuffer(dtype=int) whose
item size is eight bytes, and the shape is always the full three tuple
(x, y, channel count). -/
def oldParsePacket (buf : List Nat) : OldParseOut :=
  let storedLen := beDecode ((buf.drop 12).take 4)
  if buf.length ≠ 22 + storedLen then .fail .errStruct else
  let header := buf.getD 3 0
  let frame_number := beDecode ((buf.drop 4).take 4)
  let x := beDecode ((buf.drop 8).take 2)
  let y := beDecode ((buf.drop 10).take 2)
  let payload_bin := (buf.drop 16).take storedLen
  let stored_crc := beDecode ((buf.drop (16 + storedLen)).take 2)
  let s := binString header
  if bitsToNat (s.take 2) ≠ PROTOCOL_VER then .fail .noneVersion else
  let ptBits := (s.drop 2).take 2
  if ptBits.isEmpty then .fail .errValue else
  match PacketType.ofVal (bitsToNat ptBits) with
  | none => .fail .errValue
  | some packet_type =>
  let ccBits := (s.drop 4).take 2
  if ccBits.isEmpty then .fail .errValue else
  let ccount := bitsToNat ccBits
  if payload_bin.length % 8 ≠ 0 then .fail .errValue else
  let shape := [x, y, ccount]
  if shape.prod ≠ payload_bin.length / 8 then .fail .errReshape else
  .ok { frame_number := frame_number
        packet_type := packet_type
        frame_channel_count := ccount
        shape := shape
        payload_bin := payload_bin
        payload_crc := stored_crc }

/-- Deserialization of the older raspberry class. After the parsing
phase the source compares the stored CRC with the recomputed checksum
and returns None when they are EQUAL (the comparison in the source is
inverted with respect to the newer class); otherwise it fills a
placeholder packet and returns it. -/
def oldDeserialize (buf : List Nat) : OldDResult :=
  match oldParsePacket buf with
  | .fail r => r
  | .ok pr =>
    if pr.payload_crc = crc16ccitt pr.payload_bin then .noneCrc
    else .ok { frame_number := pr.frame_number
               packet_type := pr.packet_type
               frame_shape := pr.shape
               frame_channel_count := pr.frame_channel_count
               payload := pr.payload_bin }

/-- True when the older deserializer executes its CRC comparison on the
given buffer, that is when every earlier step succeeds. -/
def oldReachesCrcCheck (buf : List Nat) : Bool :=
  match oldParsePacket buf with
  | .ok _ => true
  | .fail _ => false

/-- Stored CRC field seen by the older deserializer at its CRC check. -/
def oldStoredCrc (buf : List Nat) : Nat :=
  match oldParsePacket buf with
  | .ok pr => pr.payload_crc
  | .fail _ => 0

/-- Checksum recomputed by the older deserializer at its CRC check. -/
def oldComputedCrc (buf : List Nat) : Nat :=
  match oldParsePacket buf with
  | .ok pr => crc16ccitt pr.payload_bin
  | .fail _ => 0

/-- True when the newer deserializer executes its CRC comparison on the
given buffer. -/
def newReachesCrcCheck (buf : List Nat) : Bool :=
  match parsePacket buf with
  | .ok _ => true
  | .fail _ => false

/-- Stored CRC field seen by the newer deserializer at its CRC check. -/
def newStoredCrc (buf : List Nat) : Nat :=
  match parsePacket buf with
  | .ok pr => pr.payload_crc
  | .fail _ => 0

/-- CRC recomputed by the newer deserializer at its CRC check. -/
def newComputedCrc (buf : List Nat) : Nat :=
  match parsePacket buf with
  | .ok pr => crc16arc pr.payload_bin
  | .fail _ => 0

/-- Mutable state of the frame TCP server touched by its request
handler: the frames queue, the buffered current_data_to_send item and
the halt event (src/comm_protocol/server/FrameTCPServer.py). -/
structure ServerState where
  frames_queue : List (Nat × NDArray)
  current_data_to_send : Option (Nat × NDArray)
  halt : Bool
deriving DecidableEq, Repr

/-- Observable outcome of one dispatch of the request handler: a packet
sent back, nothing sent, a blocking wait on an empty live queue, the
connection closed, or the TypeError raised by unpacking
current_data_to_send when it is None. -/
inductive HandleOutcome where
  | sent (p : Packet)
  | noSend
  | blockedWait
  | closed
  | crashNone
deriving DecidableEq, Repr

/-- Models FrameTCPServerRequestHandler._send_current_data: unpack
current_data_to_send into frame number and image, build a FRAME packet
from them and send its serialization. Unpacking None raises. -/
def sendCurrentData (s : ServerState) : HandleOutcome :=
  match s.current_data_to_send with
  | some (fn, image) => .sent (mkPacket fn .FRAME image)
  | none => .crashNone

/-- Models one dispatch of FrameTCPServerRequestHandler.handle on a
received packet of the given type. On OK the handler runs
_update_new_data_to_send, which first clears current_data_to_send and
then pulls the next queue item, sending it on success; with an empty
queue it returns without sending when halt is set and otherwise keeps
polling (blockedWait). On REQUEST the handler re-sends from the
buffered current_data_to_send and touches neither the queue nor the
buffer. On HALT it closes the socket. A FRAME packet matches no branch
and the loop simply continues. -/
def handleStep (s : ServerState) (pt : PacketType) : ServerState × HandleOutcome :=
  match pt with
  | .OK =>
    match s.frames_queue with
    | item :: rest =>
      let s2 : ServerState :=
        { frames_queue := rest, current_data_to_send := some item, halt := s.halt }
      (s2, sendCurrentData s2)
    | [] =>
      let s2 : ServerState :=
        { frames_queue := [], current_data_to_send := none, halt := s.halt }
      if s.halt then (s2, .noSend) else (s2, .blockedWait)
  | .REQUEST => (s, sendCurrentData s)
  | .HALT => (s, .closed)
  | .FRAME => (s, .noSend)

/-- Possible results of one loop iteration of VideoReader._run as seen
from the frames queue: the loop guard went false (feed closed, halt or
reset event set), the read returned no frame (ret was false), or a
frame was read. -/
inductive ReadStep (α : Type) where
  | interrupted : ReadStep α
  | readFail : ReadStep α
  | readOk (frame : α) : ReadStep α
deriving DecidableEq, Repr

/-- Items put on the frames queue by the inner read loop of
VideoReader._run, given the current frame_id counter and the sequence
of read outcomes: each successful read enqueues (frame_id, frame) and
increments frame_id by one; a failed read or a false loop guard ends
the loop. -/
def runInner {α : Type} (frame_id : Nat) : List (ReadStep α) → List (Nat × α)
  | [] => []
  | .interrupted :: _ => []
  | .readFail :: _ => []
  | .readOk f :: rest => (frame_id, f) :: runInner (frame_id + 1) rest

/-- Items put on the queue by one inner session of VideoReader._run.
Both the start of _run and every iteration of its outer loop reset
frame_id to 0 before entering the inner read loop. -/
def vrRunSession {α : Type} (t : List (ReadStep α)) : List (Nat × α) :=
  runInner 0 t

/-- Items put on the queue by the fresh _run thread started by
VideoReader.change_feed: change_feed sets the reset event, joins the
old thread, swaps the source, clears the reset event and starts a new
thread on _run, whose first inner session again begins with
frame_id = 0. -/
def changeFeedSession {α : Type} (t : List (ReadStep α)) : List (Nat × α) :=
  runInner 0 t

/-- Selection of a coordinate of a 2 element point by index, models
tuple indexing of the Python pair. -/
def coordGet (c : Int × Int) : Nat → Int :=
  fun i => if i = 0 then c.1 else c.2

/-- Models normalize_region of pattern_tracking/utils.py: collect the x
coordinates and y coordinates of the two points, find the index of the
minimum of each pair (Python min keeps the first index on ties), take
the value at the other index as the maximum, and return the two
normalized corner points. -/
def normalize_region (pt1 pt2 : Int × Int) : (Int × Int) × (Int × Int) :=
  let x_coords := (pt1.1, pt2.1)
  let y_coords := (pt1.2, pt2.2)
  let min_x_index : Nat := if x_coords.2 < x_coords.1 then 1 else 0
  let min_x := coordGet x_coords min_x_index
  let max_x := coordGet x_coords ((min_x_index + 1) % 2)
  let min_y_index : Nat := if y_coords.2 < y_coords.1 then 1 else 0
  let min_y := coordGet y_coords min_y_index
  let max_y := coordGet y_coords ((min_y_index + 1) % 2)
  ((min_x, min_y), (max_x, max_y))

theorem runInner_map_fst {α : Type} (k : Nat) (t : List (ReadStep α)) :
    (runInner k t).map Prod.fst = List.range' k (runInner k t).length := by
  induction t generalizing k with
  | nil => rfl
  | cons x rest ih =>
    cases x with
    | interrupted => rfl
    | readFail => rfl
    | readOk f =>
      simp only [runInner, List.map_cons, List.length_cons, List.range'_succ]
      exact congrArg (k :: ·) (ih (k + 1))

/-- C1: the round trip claim as stated fails on the code: a packet built
from a 3-D payload of shape (1, 1, 1) has frame_channel_count 1, so the
deserializer reshapes the payload to two dimensions and Packet.__eq__
rejects the shape (1, 1) against (1, 1, 1). -/
theorem C1_roundtrip_counterexample :
    roundTripEq 0 .FRAME { shape := [1, 1, 1], dtype := .U8, data := [7] } = false := by
  decide

/-- C1 (amended): deserialize(serialize(p)) == p holds for every
well-formed packet built from a 2-D payload or from a 3-D payload with
channel count 2 or 3 whose payload contains no NaN element (that is,
its elementwise NumPy self-comparison is all True, which holds for
every integer payload), and a packet whose frame_channel_count is 1
round-trips to a 2-dimensional payload array. Packets built from 3-D
payloads of shape (h, w, 1) are excluded because they come back 2-D and
Packet.__eq__ compares shapes; float payloads carrying a NaN are
excluded because NaN compares unequal even to itself, so such packets
do not round-trip equal under Packet.__eq__ either. -/
theorem C1_roundtrip_amended (fn : Nat) (pt : PacketType) (a : NDArray)
    (hwf : a.wf) (hfn : fn < 2 ^ 32) (hlen : a.data.length < 2 ^ 32)
    (hself : npEqAll a.dtype a.data a.data = true)
    (hshape : (∃ w h, a.shape = [w, h] ∧ w < 2 ^ 16 ∧ h < 2 ^ 16) ∨
      (∃ w h c, a.shape = [w, h, c] ∧ w < 2 ^ 16 ∧ h < 2 ^ 16 ∧ 2 ≤ c ∧ c ≤ 3)) :
    roundTripEq fn pt a = true ∧
    ((mkPacket fn pt a).frame_channel_count = 1 → rtShapeLen fn pt a = some 2) := by
  rcases hshape with ⟨w, h, hs, hw, hh⟩ | ⟨w, h, c, hs, hw, hh, hc2, hc3⟩
  · obtain ⟨h1, h2⟩ := roundTripEq_2d fn pt a w h hs hwf hfn hlen hw hh hself
    exact ⟨h1, fun _ => h2⟩
  · obtain ⟨h1, _⟩ := roundTripEq_3d fn pt a w h c hs hwf hfn hlen hw hh hc2 hc3 hself
    refine ⟨h1, fun hcc => ?_⟩
    have hcv : (mkPacket fn pt a).frame_channel_count = c := by
      simp [mkPacket, hs]
    omega

/-- Witness for C1 at the concrete S1 packet, a 2 by 2 by 3 array of
u8 values 4. -/
theorem C1_roundtrip_amended_witness :
    roundTripEq 250 .FRAME { shape := [2, 2, 3], dtype := .U8, data := List.replicate 12 4 } = true ∧
    ((mkPacket 250 .FRAME { shape := [2, 2, 3], dtype := .U8, data := List.replicate 12 4 }).frame_channel_count = 1 →
      rtShapeLen 250 .FRAME { shape := [2, 2, 3], dtype := .U8, data := List.replicate 12 4 } = some 2) :=
  C1_roundtrip_amended 250 .FRAME
    { shape := [2, 2, 3], dtype := .U8, data := List.replicate 12 4 }
    (by constructor
        · decide
        · decide)
    (by decide) (by decide) (by decide)
    (Or.inr ⟨2, 2, 3, rfl, by decide, by decide, by decide, by decide⟩)

set_option maxRecDepth 8192 in
/-- C2: the claimed S1 output bytes, with header byte 0xA4 and CRC bytes
A3 4F, are not what Packet.serialize produces. -/
theorem C2_s1_encode_counterexample :
    Packet.serialize (mkPacket 250 .FRAME
        { shape := [2, 2, 3], dtype := .U8, data := List.replicate 12 4 }) ≠
      some [73, 78, 85, 164, 250, 0, 0, 0, 2, 0, 2, 0, 12, 0, 0, 0,
            4, 4, 4, 4, 4, 4, 4, 4, 4, 4, 4, 4, 163, 79, 78, 69, 75, 79] := by
  decide

set_option maxRecDepth 8192 in
/-- C2 (amended): serializing the S1 packet yields exactly 34 bytes:
INU, header byte 0x9C (version 0b10, type 0b01, channels 0b11, dtype
0b00), frame number FA 00 00 00, width and height 02 00 02 00, payload
length 0C 00 00 00, twelve bytes 04, CRC bytes 60 6F (CRC-16/ARC of
twelve 04 bytes is 0x6F60), then NEKO. -/
theorem C2_s1_encode_amended :
    Packet.serialize (mkPacket 250 .FRAME
        { shape := [2, 2, 3], dtype := .U8, data := List.replicate 12 4 }) =
      some [73, 78, 85, 156, 250, 0, 0, 0, 2, 0, 2, 0, 12, 0, 0, 0,
            4, 4, 4, 4, 4, 4, 4, 4, 4, 4, 4, 4, 96, 111, 78, 69, 75, 79] := by
  decide

/-- C3: a buffer whose header byte is 0x44 has protocol version bits
0b01, yet Packet.deserialize accepts it and returns a packet, because
bin(0x44)[2:] has only seven digits and its first two read "10". The
misalignment also shifts every later field: the channel count becomes
2 and the stored shape (0, 0, 2). -/
theorem C3_version_bypass_eval :
    (68 >>> 6 ≠ PROTOCOL_VER) ∧
    Packet.deserialize [73, 78, 85, 68, 0, 0, 0, 0, 0, 0, 0, 0, 0, 0, 0, 0,
        0, 0, 78, 69, 75, 79] =
      .ok { frame_number := 0, packet_type := .OK, payload_dtype := .U8,
            frame_shape := [0, 0, 2], frame_channel_count := 2,
            payload := { shape := [0, 0, 2], dtype := .U8, data := [] },
            payload_crc := 0 } := by
  decide

/-- C5: on an empty u8 payload the constructor stores width 0, height 0
and payload length 0, the CRC of the empty byte string is 0 and the
packet serializes to exactly 22 bytes, but frame_channel_count ends up
1 instead of the claimed 0 (the assignment of 0 in the (0,) branch is
overwritten by the following if statement), and the round trip fails
because the payload comes back with shape (0, 0) instead of (0,). -/
theorem C5_empty_payload_eval :
    (mkPacket 0 .OK { shape := [0], dtype := .U8, data := [] }).frame_shape = [0, 0] ∧
    (mkPacket 0 .OK { shape := [0], dtype := .U8, data := [] }).payload_crc = 0 ∧
    (mkPacket 0 .OK { shape := [0], dtype := .U8, data := [] }).payload_length = 0 ∧
    Packet.serialize (mkPacket 0 .OK { shape := [0], dtype := .U8, data := [] }) =
      some [73, 78, 85, 132, 0, 0, 0, 0, 0, 0, 0, 0, 0, 0, 0, 0, 0, 0, 78, 69, 75, 79] ∧
    (mkPacket 0 .OK { shape := [0], dtype := .U8, data := [] }).frame_channel_count = 1 ∧
    roundTripEq 0 .OK { shape := [0], dtype := .U8, data := [] } = false := by
  decide

/-- C6: the code does not reject a payload length mismatch the way the
claim states. Whenever the stored payload_length field disagrees with
the number of bytes actually present between the fixed header and the
end magic word (that is, the buffer length differs from 22 plus the
stored length), struct.unpack raises an uncaught struct.error,
modelled by the errStruct result: deserialize never returns a packet,
but it also never takes either of its return-None paths, so the
failure mode is an exception rather than the claimed error return. -/
theorem C6_length_mismatch_rejected (buf : List Nat)
    (h : buf.length ≠ 22 + leDecode ((buf.drop 12).take 4)) :
    Packet.deserialize buf = .errStruct := by
  have hp : parsePacket buf = .fail .errStruct := by
    rw [parsePacket, if_pos h]
  rw [Packet.deserialize, hp]

/-- Witness for C6 on a 23 byte buffer of zeros, whose stored payload
length 0 disagrees with the 1 byte actually present. -/
theorem C6_length_mismatch_rejected_witness :
    Packet.deserialize (List.replicate 23 0) = .errStruct :=
  C6_length_mismatch_rejected (List.replicate 23 0) (by decide)

/-- C4: for every well-formed packet with non-empty payload, flipping
any single bit of any byte in the payload region (offsets 16 up to
16 + L - 1) of the serialized buffer makes Packet.deserialize return
the CRC mismatch result instead of a packet. -/
theorem C4_payload_bitflip_crc_mismatch (fn : Nat) (pt : PacketType) (a : NDArray)
    (buf : List Nat) (j k : Nat)
    (hwf : a.wf) (hfn : fn < 2 ^ 32) (hlen : a.data.length < 2 ^ 32)
    (hshape : (∃ w h, a.shape = [w, h] ∧ w < 2 ^ 16 ∧ h < 2 ^ 16) ∨
      (∃ w h c, a.shape = [w, h, c] ∧ w < 2 ^ 16 ∧ h < 2 ^ 16 ∧ 1 ≤ c ∧ c ≤ 3))
    (hser : (mkPacket fn pt a).serialize = some buf)
    (hj : j < a.data.length) (hk : k < 8) :
    Packet.deserialize (flipBit buf (16 + j) k) = .noneCrc := by
  obtain ⟨w, h, ccv, hccv, hser2, hparse⟩ := ser_parse_shape fn pt a hwf hfn hlen hshape
  rw [hser] at hser2
  injection hser2 with hbuf
  subst hbuf
  rw [flip_mkBuf _ _ _ _ _ _ _ _ hj]
  have hbds := shiftLeft_one_bound hk
  have hb : a.data.getD j 0 < 256 := by
    have hmem : a.data.getD j 0 ∈ a.data := by
      rw [List.getD_eq_getElem?_getD, List.getElem?_eq_getElem hj]
      exact List.getElem_mem hj
    exact hwf.2 _ hmem
  have h28 : (256 : Nat) = 2 ^ 8 := by norm_num
  have hvlt : a.data.getD j 0 ^^^ 1 <<< k < 256 := by
    rw [h28] at hb ⊢
    exact Nat.xor_lt_two_pow hb (by rw [← h28]; exact hbds.2)
  have hvne : a.data.getD j 0 ^^^ 1 <<< k ≠ a.data.getD j 0 :=
    xor_flip_ne _ _ hbds.1
  have hcrcne : crc16arc (a.data.set j (a.data.getD j 0 ^^^ 1 <<< k)) ≠ crc16arc a.data :=
    crc16arc_set_ne a.data j _ hj hwf.2 hvlt hvne
  have hp := hparse (a.data.set j (a.data.getD j 0 ^^^ 1 <<< k)) (by simp)
  have hcond : crc16arc a.data ≠
      crc16arc (a.data.set j (a.data.getD j 0 ^^^ 1 <<< k)) := Ne.symm hcrcne
  exact deserialize_of_parse_ne _ _ hp hcond

/-- Witness for C4: flip the lowest bit of the single payload byte of a
1 by 1 u8 packet and observe the CRC mismatch result. -/
theorem C4_payload_bitflip_crc_mismatch_witness :
    Packet.deserialize (flipBit
      ((Packet.serialize (mkPacket 0 .OK { shape := [1, 1], dtype := .U8, data := [5] })).getD [])
      (16 + 0) 0) = .noneCrc :=
  C4_payload_bitflip_crc_mismatch 0 .OK { shape := [1, 1], dtype := .U8, data := [5] }
    ((Packet.serialize (mkPacket 0 .OK { shape := [1, 1], dtype := .U8, data := [5] })).getD [])
    0 0
    (by constructor
        · decide
        · decide)
    (by decide) (by decide)
    (Or.inl ⟨1, 1, rfl, by decide, by decide⟩)
    (by decide) (by decide) (by decide)

/-- C7: conditioned on reaching the CRC comparison, the older raspberry
deserializer returns None exactly when the recomputed checksum EQUALS
the stored CRC (the check is inverted), while the newer deserializer
returns None exactly when the recomputed CRC DIFFERS from the stored
CRC. -/
theorem C7_crc_check_polarity (b1 b2 : List Nat)
    (h1 : oldReachesCrcCheck b1 = true) (h2 : newReachesCrcCheck b2 = true) :
    ((oldDeserialize b1 = .noneCrc) ↔ oldStoredCrc b1 = oldComputedCrc b1) ∧
    ((Packet.deserialize b2 = .noneCrc) ↔ ¬ newStoredCrc b2 = newComputedCrc b2) := by
  constructor
  · unfold oldReachesCrcCheck at h1
    unfold oldDeserialize oldStoredCrc oldComputedCrc
    cases hop : oldParsePacket b1 with
    | fail r => rw [hop] at h1; simp at h1
    | ok pr =>
      by_cases hc : pr.payload_crc = crc16ccitt pr.payload_bin
      · simp [hc]
      · simp [hc]
  · unfold newReachesCrcCheck at h2
    unfold Packet.deserialize newStoredCrc newComputedCrc
    cases hop : parsePacket b2 with
    | fail r => rw [hop] at h2; simp at h2
    | ok pr =>
      by_cases hc : pr.payload_crc = crc16arc pr.payload_bin
      · simp [hc]
      · simp [hc]

/-- Witness for C7: an 8 byte all-zero payload packet for the older
big endian wire format and the 22 byte empty packet for the newer one,
both of which reach the CRC comparison. -/
theorem C7_crc_check_polarity_witness :
    ((oldDeserialize [105, 110, 117, 132, 0, 0, 0, 0, 0, 1, 0, 1, 0, 0, 0, 8,
        0, 0, 0, 0, 0, 0, 0, 0, 0, 0, 110, 101, 107, 111] = .noneCrc) ↔
      oldStoredCrc [105, 110, 117, 132, 0, 0, 0, 0, 0, 1, 0, 1, 0, 0, 0, 8,
        0, 0, 0, 0, 0, 0, 0, 0, 0, 0, 110, 101, 107, 111] =
      oldComputedCrc [105, 110, 117, 132, 0, 0, 0, 0, 0, 1, 0, 1, 0, 0, 0, 8,
        0, 0, 0, 0, 0, 0, 0, 0, 0, 0, 110, 101, 107, 111]) ∧
    ((Packet.deserialize [73, 78, 85, 132, 0, 0, 0, 0, 0, 0, 0, 0, 0, 0, 0, 0,
        0, 0, 78, 69, 75, 79] = .noneCrc) ↔
      ¬ newStoredCrc [73, 78, 85, 132, 0, 0, 0, 0, 0, 0, 0, 0, 0, 0, 0, 0,
          0, 0, 78, 69, 75, 79] =
        newComputedCrc [73, 78, 85, 132, 0, 0, 0, 0, 0, 0, 0, 0, 0, 0, 0, 0,
          0, 0, 78, 69, 75, 79]) :=
  C7_crc_check_polarity
    [105, 110, 117, 132, 0, 0, 0, 0, 0, 1, 0, 1, 0, 0, 0, 8,
     0, 0, 0, 0, 0, 0, 0, 0, 0, 0, 110, 101, 107, 111]
    [73, 78, 85, 132, 0, 0, 0, 0, 0, 0, 0, 0, 0, 0, 0, 0, 0, 0, 78, 69, 75, 79]
    (by decide) (by decide)

/-- C8: when the request handler receives a REQUEST packet it re-sends
a FRAME packet built from the same current_data_to_send (same frame
number and same frame) and leaves both the frames queue and the buffer
unchanged; no packet type other than OK touches current_data_to_send,
and an OK with a non-empty queue replaces the buffer with the item
pulled from the head of the queue. -/
theorem C8_request_replay_ok_advance (s : ServerState) (fn : Nat) (image : NDArray)
    (hcur : s.current_data_to_send = some (fn, image)) :
    handleStep s .REQUEST = (s, .sent (mkPacket fn .FRAME image)) ∧
    (∀ pt, pt ≠ .OK → (handleStep s pt).1.frames_queue = s.frames_queue ∧
      (handleStep s pt).1.current_data_to_send = s.current_data_to_send) ∧
    (∀ item rest, s.frames_queue = item :: rest →
      (handleStep s .OK).1.current_data_to_send = some item ∧
      (handleStep s .OK).1.frames_queue = rest) := by
  refine ⟨?_, ?_, ?_⟩
  · simp [handleStep, sendCurrentData, hcur]
  · intro pt hpt
    cases pt with
    | OK => exact absurd rfl hpt
    | FRAME => exact ⟨rfl, rfl⟩
    | REQUEST => exact ⟨rfl, rfl⟩
    | HALT => exact ⟨rfl, rfl⟩
  · intro item rest hq
    simp [handleStep, hq]

/-- Witness for C8 at a concrete server state with a buffered frame and
one queued item. -/
theorem C8_request_replay_ok_advance_witness :
    handleStep { frames_queue := [(4, { shape := [1, 1], dtype := .U8, data := [9] })],
                 current_data_to_send := some (3, { shape := [1, 1], dtype := .U8, data := [8] }),
                 halt := false } .REQUEST =
      ({ frames_queue := [(4, { shape := [1, 1], dtype := .U8, data := [9] })],
         current_data_to_send := some (3, { shape := [1, 1], dtype := .U8, data := [8] }),
         halt := false }, .sent (mkPacket 3 .FRAME { shape := [1, 1], dtype := .U8, data := [8] })) ∧
    (∀ pt, pt ≠ .OK →
      (handleStep { frames_queue := [(4, { shape := [1, 1], dtype := .U8, data := [9] })],
                    current_data_to_send := some (3, { shape := [1, 1], dtype := .U8, data := [8] }),
                    halt := false } pt).1.frames_queue =
        ({ frames_queue := [(4, { shape := [1, 1], dtype := .U8, data := [9] })],
           current_data_to_send := some (3, { shape := [1, 1], dtype := .U8, data := [8] }),
           halt := false } : ServerState).frames_queue ∧
      (handleStep { frames_queue := [(4, { shape := [1, 1], dtype := .U8, data := [9] })],
                    current_data_to_send := some (3, { shape := [1, 1], dtype := .U8, data := [8] }),
                    halt := false } pt).1.current_data_to_send =
        ({ frames_queue := [(4, { shape := [1, 1], dtype := .U8, data := [9] })],
           current_data_to_send := some (3, { shape := [1, 1], dtype := .U8, data := [8] }),
           halt := false } : ServerState).current_data_to_send) ∧
    (∀ item rest,
      ({ frames_queue := [(4, { shape := [1, 1], dtype := .U8, data := [9] })],
         current_data_to_send := some (3, { shape := [1, 1], dtype := .U8, data := [8] }),
         halt := false } : ServerState).frames_queue = item :: rest →
      (handleStep { frames_queue := [(4, { shape := [1, 1], dtype := .U8, data := [9] })],
                    current_data_to_send := some (3, { shape := [1, 1], dtype := .U8, data := [8] }),
                    halt := false } .OK).1.current_data_to_send = some item ∧
      (handleStep { frames_queue := [(4, { shape := [1, 1], dtype := .U8, data := [9] })],
                    current_data_to_send := some (3, { shape := [1, 1], dtype := .U8, data := [8] }),
                    halt := false } .OK).1.frames_queue = rest) :=
  C8_request_replay_ok_advance
    { frames_queue := [(4, { shape := [1, 1], dtype := .U8, data := [9] })],
      current_data_to_send := some (3, { shape := [1, 1], dtype := .U8, data := [8] }),
      halt := false }
    3 { shape := [1, 1], dtype := .U8, data := [8] } rfl

/-- C9: within one inner read session of VideoReader._run the items put
on the frames queue carry frame numbers 0, 1, 2, ... in order (each
successive item one greater, no repeats or restarts), and the fresh
_run thread started by change_feed numbers its items from 0 again. -/
theorem C9_frame_numbering (α : Type) (t u : List (ReadStep α)) :
    (vrRunSession t).map Prod.fst = List.range (vrRunSession t).length ∧
    (changeFeedSession u).map Prod.fst = List.range (changeFeedSession u).length := by
  constructor
  · rw [List.range_eq_range']
    exact runInner_map_fst 0 t
  · rw [List.range_eq_range']
    exact runInner_map_fst 0 u

/-- C10: normalize_region returns the componentwise minimum corner
followed by the componentwise maximum corner, and is therefore
symmetric in its two arguments. -/
theorem C10_normalize_region_minmax (pt1 pt2 : Int × Int) :
    normalize_region pt1 pt2 =
      ((min pt1.1 pt2.1, min pt1.2 pt2.2), (max pt1.1 pt2.1, max pt1.2 pt2.2)) ∧
    normalize_region pt1 pt2 = normalize_region pt2 pt1 := by
  constructor
  · simp only [normalize_region, coordGet, min_def, max_def, Prod.mk.injEq]
    split_ifs <;> first
      | (exfalso; omega)
      | (refine ⟨⟨?_, ?_⟩, ?_, ?_⟩ <;> omega)
      | trivial
  · simp only [normalize_region, coordGet, Prod.mk.injEq]
    split_ifs <;> first
      | (exfalso; omega)
      | (refine ⟨⟨?_, ?_⟩, ?_, ?_⟩ <;> omega)
      | trivial
